import Mathlib

/-!
Shallow embedding of the identifier-normalization and geographic-join logic of
the open-data-dashboard-map repository (`src/dataLoader.ts` and the join core of
`src/Map.tsx`, function `loadGeoData`), together with theorems settling the
frozen claims about it.

JavaScript string idioms are modelled over `List Char`:
`String.prototype.trim`, `split(',')`, `toLowerCase`, `padStart`, `substring`,
`startsWith`, `includes`, and string truthiness (`!s` is true exactly for `""`).
JavaScript numbers that reach the join logic (latitude/longitude, polygon
coordinates) are modelled as rationals; `NaN`/`Infinity` raw cells are the
`JsNum.nan` constructor, which `normalizeRow`'s `Number.isFinite` guard
discards, so only finite values appear in records.  A JS `Map` is an
insertion-ordered association list with replace-on-set semantics, and a JS
`Set` iterated with `Array.from` is a duplicate-free list in insertion order.
-/

/-- The apostrophe character stripped by `normalizeId` (`replace(/^'+/, '')`). -/
def apos : Char := Char.ofNat 39

/-- JS `String.prototype.trim`: drop whitespace from both ends. -/
def jsTrim (s : String) : String :=
  String.mk (((s.data.dropWhile Char.isWhitespace).reverse.dropWhile Char.isWhitespace).reverse)

/-- JS `String.prototype.toLowerCase` (ASCII case folding). -/
def jsToLower (s : String) : String :=
  String.mk (s.data.map Char.toLower)

/-- JS `s.substring(0, n)` for `0 ≤ n ≤ s.length`: the first `n` characters. -/
def jsTake (s : String) (n : Nat) : String :=
  String.mk (s.data.take n)

/-- JS `.length` of a string (all identifiers involved are ASCII). -/
def jsLength (s : String) : Nat := s.data.length

/-- Is `needle` an initial run of `hay`? -/
def leadsList : List Char → List Char → Bool
  | [], _ => true
  | _ :: _, [] => false
  | a :: as, b :: bs => a == b && leadsList as bs

/-- Does `hay` contain `needle` as a contiguous run? -/
def containsList (needle : List Char) : List Char → Bool
  | [] => needle.isEmpty
  | c :: t => leadsList needle (c :: t) || containsList needle t

/-- JS `String.prototype.includes`. -/
def strIncludes (s sub : String) : Bool := containsList sub.data s.data

/-- JS `String.prototype.startsWith`. -/
def jsStartsWith (s pre : String) : Bool := leadsList pre.data s.data

/-- Split a character list at every occurrence of `sep` (JS `split`). -/
def splitCharAux (sep : Char) : List Char → List Char → List (List Char)
  | [], acc => [acc.reverse]
  | c :: t, acc =>
    if c == sep then acc.reverse :: splitCharAux sep t [] else splitCharAux sep t (c :: acc)

/-- JS `String.prototype.split` with a one-character separator. -/
def jsSplitChar (sep : Char) (s : String) : List String :=
  (splitCharAux sep s.data []).map String.mk

/-- JS `String.prototype.padStart(n, c)`: left-pad to width `n`; a string already
at least `n` long is returned unchanged (it is never truncated). -/
def padStart (s : String) (n : Nat) (c : Char) : String :=
  if n ≤ jsLength s then s else String.mk (List.replicate (n - jsLength s) c ++ s.data)

/-- `dataLoader.ts` `normalizeId`: stringify, trim, strip leading apostrophes. -/
def normalizeId (s : String) : String :=
  String.mk ((jsTrim s).data.dropWhile (fun c => c == apos))

/-- `dataLoader.ts` `normalizeIdForType`: pure `"county"` type pads to width 5,
everything else pads to width 7. -/
def normalizeIdForType (id govType : String) : String :=
  let clean := normalizeId id
  let type := jsToLower (jsTrim govType)
  let isCountyOnly := type == "county"
  if isCountyOnly then padStart clean 5 '0' else padStart clean 7 '0'

/-- A finite JS number or `NaN` (what `Number(...)` can produce from a non-empty cell). -/
inductive JsNum where
  | finite (q : ℚ)
  | nan
deriving DecidableEq

/-- One raw CSV row (`CsvRowRaw` in `dataLoader.ts`); `none` models an absent
(`undefined`) cell, and for the coordinate cells also `null`/`''`. -/
structure CsvRowRaw where
  Jurisdiction : Option String
  JurisdictionID : Option String
  URL : Option String
  PopulationSize : Option String
  GovernmentType : Option String
  Notes : Option String
  Latitude : Option JsNum
  Longitude : Option JsNum
deriving DecidableEq

/-- A normalized row (`DashboardRecord` in `dataLoader.ts`). -/
structure DashboardRecord where
  jurisdiction : String
  jurisdictionId : String
  url : String
  populationSize : String
  governmentTypeRaw : String
  governmentTypes : List String
  isUnified : Bool
  displayGovernmentType : String
  notes : String
  latitude : Option ℚ
  longitude : Option ℚ
deriving DecidableEq

/-- JS `field?.trim() || ''`. -/
def jsTrimOr (o : Option String) : String := jsTrim (o.getD "")

/-- The unification marker substring searched for in `Notes`. -/
def unifiedMarker : String := "Unified City-County Government"

/-- `governmentTypeRaw.split(',').map(trim).filter(Boolean)`. -/
def splitGovTypes (governmentTypeRaw : String) : List String :=
  ((jsSplitChar ',' governmentTypeRaw).map jsTrim).filter (fun v => !(v == ""))

/-- The `Number(...)`/`Number.isFinite` guard of `normalizeRow` (lines 94-110):
keep a finite numeric value, drop absent/empty/non-finite cells. -/
def parseCoord : Option JsNum → Option ℚ
  | some (JsNum.finite q) => some q
  | _ => none

/-- The record built by `normalizeRow` once the guard has passed (the else-path
of `dataLoader.ts` lines 61-125, fields computed exactly as in the source). -/
def mkRecord (raw : CsvRowRaw) : DashboardRecord :=
  let notes := jsTrimOr raw.Notes
  let governmentTypes := splitGovTypes (jsTrimOr raw.GovernmentType)
  let hasCity := governmentTypes.contains "City"
  let hasCounty := governmentTypes.contains "County"
  let unifiedByNotes := strIncludes notes unifiedMarker
  let isUnified := unifiedByNotes || (hasCity && hasCounty)
  { jurisdiction := jsTrimOr raw.Jurisdiction
    jurisdictionId := normalizeIdForType (raw.JurisdictionID.getD "") (jsTrimOr raw.GovernmentType)
    url := jsTrimOr raw.URL
    populationSize := jsTrimOr raw.PopulationSize
    governmentTypeRaw := jsTrimOr raw.GovernmentType
    governmentTypes := governmentTypes
    isUnified := isUnified
    displayGovernmentType :=
      if unifiedByNotes then "Unified City–County"
      else if isUnified then "City + County"
      else if (governmentTypes.headD "") == "" then "Other Public Agency"
      else governmentTypes.headD ""
    notes := notes
    latitude := parseCoord raw.Latitude
    longitude := parseCoord raw.Longitude }

/-- `dataLoader.ts` `normalizeRow`: normalize the id, then drop the row when the
normalized id or the trimmed URL is falsy (`!jurisdictionId || !url`). -/
def normalizeRow (raw : CsvRowRaw) : Option DashboardRecord :=
  if normalizeIdForType (raw.JurisdictionID.getD "") (jsTrimOr raw.GovernmentType) == ""
      || jsTrimOr raw.URL == "" then none
  else some (mkRecord raw)

/-- One boundary feature of the external county GeoJSON: `fid` is
`String(feature.id)`, `geoType` is `feature.geometry.type`, and `rings` is
`feature.geometry.coordinates` (each ring a list of `[lng, lat]` pairs). -/
structure GeoFeature where
  fid : String
  geoType : String
  rings : List (List (ℚ × ℚ))
deriving DecidableEq

/-- A city point feature pushed by `loadGeoData` (`Map.tsx` lines 171-183). -/
structure CityMarker where
  name : String
  csvId : String
  lng : ℚ
  lat : ℚ
deriving DecidableEq

/-- JS `Map.prototype.set`: replace in place or append. -/
def jsMapSet : List (String × String) → String → String → List (String × String)
  | [], k, v => [(k, v)]
  | (k0, v0) :: t, k, v =>
    if k0 == k then (k, v) :: t else (k0, v0) :: jsMapSet t k v

/-- JS `Map.prototype.get`. -/
def jsMapGet : List (String × String) → String → Option String
  | [], _ => none
  | (k0, v0) :: t, k => if k0 == k then some v0 else jsMapGet t k

/-- The `idMatchMap` of `Map.tsx` lines 87-93: for each feature, map both the
padded and the raw stringified id to the padded id. -/
def buildIdMatchMap (fs : List GeoFeature) : List (String × String) :=
  fs.foldl
    (fun m f =>
      let paddedId := padStart f.fid 5 '0'
      jsMapSet (jsMapSet m paddedId paddedId) f.fid paddedId)
    []

/-- The county filter of `Map.tsx` lines 97-133, reduced to the `CSV_ID` it
stores: `some` exactly when the feature is kept.  Primary path: the id-map
lookup result is truthy and in `hasDataIds`.  Secondary path: the padded id
concatenated with `"00"` is in `hasDataIds` (unified city-county). -/
def countyCsvId (ids : List String) (fs : List GeoFeature) (f : GeoFeature) : Option String :=
  match jsMapGet (buildIdMatchMap fs) (padStart f.fid 5 '0') with
  | some m =>
    if !(m == "") && ids.contains m then some m
    else if ids.contains (padStart f.fid 5 '0' ++ "00") then some (padStart f.fid 5 '0' ++ "00")
    else none
  | none =>
    if ids.contains (padStart f.fid 5 '0' ++ "00") then some (padStart f.fid 5 '0' ++ "00")
    else none

/-- `allData.find(d => d.jurisdictionId === cityId)?.jurisdiction || 'City'`. -/
def lookupName : List DashboardRecord → String → String
  | [], _ => "City"
  | d :: t, cityId =>
    if d.jurisdictionId == cityId then
      (if d.jurisdiction == "" then "City" else d.jurisdiction)
    else lookupName t cityId

/-- `reduce((a, b) => a + b, 0)` over rationals. -/
def qSum (l : List ℚ) : ℚ := l.foldl (· + ·) 0

/-- The centroid coordinate computation of `Map.tsx` lines 163-167: sum of the
values divided by their count. -/
def qMean (l : List ℚ) : ℚ := qSum l / (l.length : ℚ)

/-- The parent-county search of `Map.tsx` lines 150-159: first look the 5-digit
truncation of the city id up directly as a county id, then fall back to the
first county whose padded id starts with the 2-digit state code. -/
def findParentCounty (fs : List GeoFeature) (cityId : String) : Option GeoFeature :=
  let stateFips := jsTake cityId 2
  let stateCountyFips := jsTake cityId 5
  match fs.find? (fun f => padStart f.fid 5 '0' == stateCountyFips) with
  | some pc => some pc
  | none => fs.find? (fun f => jsStartsWith (padStart f.fid 5 '0') stateFips)

/-- The body of the per-city loop of `Map.tsx` lines 149-187: `some` marker when
a parent county with `Polygon` geometry is found (placed at the mean of the
first ring's vertices), `none` when the city is logged as unplaced. -/
def placeCity (fs : List GeoFeature) (allData : List DashboardRecord) (cityId : String) :
    Option CityMarker :=
  match findParentCounty fs cityId with
  | some pc =>
    if pc.geoType == "Polygon" then
      some
        { name := lookupName allData cityId
          csvId := cityId
          lng := qMean ((pc.rings.headD []).map Prod.fst)
          lat := qMean ((pc.rings.headD []).map Prod.snd) }
    else none
  | none => none

/-- `Array.from(hasDataIds).filter(id => id.length === 7)`. -/
def cityIdsOf (ids : List String) : List String :=
  ids.filter (fun i => jsLength i == 7)

/-- The joined output of one `loadGeoData` run: kept county polygons with their
stored `CSV_ID`, emitted city markers, and the individually logged
"No parent county found" drops. -/
structure JoinOutput where
  counties : List (GeoFeature × String)
  cities : List CityMarker
  drops : List String
deriving DecidableEq

/-- The join core of `Map.tsx` `loadGeoData` (lines 87-190): filter the boundary
features against `hasDataIds`, then place every 7-digit id as a marker or log
it as dropped. -/
def loadGeoData (ids : List String) (fs : List GeoFeature) (allData : List DashboardRecord) :
    JoinOutput :=
  { counties := fs.filterMap (fun f => (countyCsvId ids fs f).map (fun c => (f, c)))
    cities := (cityIdsOf ids).filterMap (placeCity fs allData)
    drops := (cityIdsOf ids).filter (fun c => (placeCity fs allData c).isNone) }

/-- Classifier contract as the spec states it (§4.2): `isUnified` iff the notes
contain the unification marker or the declared kinds contain both City and
County; the label resolves unified-by-notes, then combined types, then the
first declared type, then the generic fallback. -/
def specClassifier (notes : String) (kinds : List String) : Bool × String :=
  let unifiedByNotes := strIncludes notes unifiedMarker
  let combined := kinds.contains "City" && kinds.contains "County"
  ( unifiedByNotes || combined,
    if unifiedByNotes then "Unified City–County"
    else if combined then "City + County"
    else
      match kinds with
      | [] => "Other Public Agency"
      | k :: _ => k )

/-- A square Texas county used in concrete runs; centroid `(1, 1)`. -/
def texas48001 : GeoFeature :=
  { fid := "48001", geoType := "Polygon", rings := [[(0, 0), (2, 0), (2, 2), (0, 2)]] }

/-- A county whose id coincides with the 5-digit truncation of Dallas city's
place id `"4819000"`; centroid `(11, 11)`. -/
def texas48190 : GeoFeature :=
  { fid := "48190", geoType := "Polygon", rings := [[(10, 10), (12, 10), (12, 12), (10, 12)]] }

/-- A Texas county carried as a MultiPolygon. -/
def texasMulti : GeoFeature :=
  { fid := "48001", geoType := "MultiPolygon", rings := [[(0, 0), (2, 0), (2, 2), (0, 2)]] }

/-- Denver County under its unpadded numeric id `8031`. -/
def denverBoundary : GeoFeature :=
  { fid := "8031", geoType := "Polygon", rings := [[(0, 0), (2, 0), (2, 2), (0, 2)]] }

/-- Denver County as a MultiPolygon. -/
def denverMulti : GeoFeature :=
  { fid := "08031", geoType := "MultiPolygon", rings := [[(0, 0), (4, 0), (4, 2), (0, 2)]] }

/-- Denver County as a plain Polygon with the same ring; vertex means `(2, 1)`. -/
def denverPoly : GeoFeature :=
  { fid := "08031", geoType := "Polygon", rings := [[(0, 0), (4, 0), (4, 2), (0, 2)]] }

/-- The Denver scenario row of the spec (§8). -/
def denverRow : CsvRowRaw :=
  { Jurisdiction := some "Denver, CO"
    JurisdictionID := some "0820000"
    URL := some "https://example.com/denver"
    PopulationSize := none
    GovernmentType := some "City, County"
    Notes := some "Unified City-County Government"
    Latitude := none
    Longitude := none }

/-- A row whose raw identifier is only apostrophes, hence empty once cleaned. -/
def emptyIdRow : CsvRowRaw :=
  { Jurisdiction := some "Ghost Town"
    JurisdictionID := some (String.mk [apos, apos])
    URL := some "https://example.com/portal"
    PopulationSize := none
    GovernmentType := some "City"
    Notes := none
    Latitude := none
    Longitude := none }

/-- A Denver record carrying exact finite coordinates. -/
def denverRecord : DashboardRecord :=
  { jurisdiction := "Denver, CO"
    jurisdictionId := "0820000"
    url := "https://example.com/denver"
    populationSize := ""
    governmentTypeRaw := "City, County"
    governmentTypes := ["City", "County"]
    isUnified := true
    displayGovernmentType := "Unified City–County"
    notes := "Unified City-County Government"
    latitude := some 39
    longitude := some (-104) }

/-- Length behaviour of JS `padStart`: never shorter than the pad width, and
never truncated below the input's own length. -/
theorem padStart_jsLength (s : String) (n : Nat) (c : Char) :
    jsLength (padStart s n c) = max n (jsLength s) := by
  unfold padStart
  split
  · omega
  · show (List.replicate (n - jsLength s) c ++ s.data).length = _
    simp only [List.length_append, List.length_replicate]
    unfold jsLength
    omega

/-- Both branches of the county filter check membership in `hasDataIds` before
storing a `CSV_ID`, so a stored id is always a member. -/
theorem countyCsvId_contains {ids : List String} {fs : List GeoFeature} {f : GeoFeature}
    {c : String} (h : countyCsvId ids fs f = some c) : ids.contains c = true := by
  unfold countyCsvId at h
  split at h
  · split at h
    · rename_i hcond
      injection h with h
      subst h
      exact ((Bool.and_eq_true _ _).mp hcond).2
    · split at h
      · injection h with h
        subst h
        assumption
      · exact Option.noConfusion h
  · split at h
    · injection h with h
      subst h
      assumption
    · exact Option.noConfusion h

/-- A placed city marker always carries the city id it was placed for. -/
theorem placeCity_csvId {fs : List GeoFeature} {rows : List DashboardRecord}
    {cid : String} {m : CityMarker} (h : placeCity fs rows cid = some m) : m.csvId = cid := by
  unfold placeCity at h
  split at h
  · split at h
    · injection h with h
      subst h
      rfl
    · exact Option.noConfusion h
  · exact Option.noConfusion h

/-- Splitting a list into the image of `filterMap` and the elements on which the
function returns `none` preserves the total count. -/
theorem length_filterMap_add_filter {α β : Type} (g : α → Option β) :
    ∀ l : List α,
      (l.filterMap g).length + (l.filter (fun x => (g x).isNone)).length = l.length := by
  intro l
  induction l with
  | nil => rfl
  | cons x t ih =>
    cases hg : g x <;>
      simp [List.filterMap_cons, List.filter_cons, hg] <;>
      omega

/-- Record lookup by id is unaffected by rewriting every record's coordinates:
the search key and the returned name are coordinate-free fields. -/
theorem lookupName_coords (la lo : Option ℚ) (cid : String) :
    ∀ rows : List DashboardRecord,
      lookupName (rows.map (fun r => { r with latitude := la, longitude := lo })) cid
        = lookupName rows cid := by
  intro rows
  induction rows with
  | nil => rfl
  | cons r t ih =>
    simp only [List.map_cons, lookupName]
    rw [ih]

/-- City placement is unaffected by rewriting every record's coordinates. -/
theorem placeCity_coords (fs : List GeoFeature) (rows : List DashboardRecord)
    (la lo : Option ℚ) (cid : String) :
    placeCity fs (rows.map (fun r => { r with latitude := la, longitude := lo })) cid
      = placeCity fs rows cid := by
  unfold placeCity
  rw [lookupName_coords]

/-- A row that survives `normalizeRow` is exactly the record `mkRecord` builds. -/
theorem normalizeRow_eq {raw : CsvRowRaw} {r : DashboardRecord}
    (h : normalizeRow raw = some r) : r = mkRecord raw := by
  unfold normalizeRow at h
  split at h
  · exact Option.noConfusion h
  · injection h with h
    exact h.symm

/-- The head of the split-and-filtered government-type list is never the empty
string (empties are removed by `filter(Boolean)`). -/
theorem splitGovTypes_head_ne {g : String} {k : String} {t : List String}
    (h : splitGovTypes g = k :: t) : (k == "") = false := by
  have hmem : k ∈ splitGovTypes g := by
    rw [h]
    exact List.mem_cons_self k t
  unfold splitGovTypes at hmem
  rw [List.mem_filter] at hmem
  have hk := hmem.2
  cases hb : (k == "")
  · rfl
  · rw [hb] at hk
    exact Bool.noConfusion hk

/-- C1: the join engine DOES derive the degraded placement polygon by truncating
the 7-digit place identifier to its first five digits and looking that up as a
county identifier.  With boundary counties `48001` and `48190` (in that order)
and input id `"4819000"`, the parent-county search returns county `48190` (the
truncation match), the city marker lands on `48190`'s centroid `(11, 11)`, and
that differs from the centroid of `48001`, the first county matched by the
2-digit state code — so the code violates the never-truncate rule the claim
states. -/
theorem c1_truncated_lookup_used :
    findParentCounty [texas48001, texas48190] "4819000" = some texas48190
    ∧ [texas48001, texas48190].find?
        (fun f => jsStartsWith (padStart f.fid 5 '0') (jsTake "4819000" 2)) = some texas48001
    ∧ (loadGeoData ["4819000"] [texas48001, texas48190] []).cities
        = [{ name := "City", csvId := "4819000", lng := 11, lat := 11 }]
    ∧ ¬ (qMean ((texas48190.rings.headD []).map Prod.fst)
          = qMean ((texas48001.rings.headD []).map Prod.fst)) := by
  with_unfolding_all decide

/-- C2 counterexample: a record with canonical id `"0820000"` (length 7) and
finite coordinates `(lat 39, lng -104)` is emitted at the fallback county's
centroid `(1, 1)`, not at its own coordinates. -/
theorem c2_coordinates_ignored_cex :
    denverRecord.latitude = some 39
    ∧ denverRecord.longitude = some (-104)
    ∧ jsLength denverRecord.jurisdictionId = 7
    ∧ (loadGeoData ["0820000"] [denverBoundary] [denverRecord]).cities
        = [{ name := "Denver, CO", csvId := "0820000", lng := 1, lat := 1 }]
    ∧ ¬ ((1 : ℚ) = -104 ∧ (1 : ℚ) = 39) := by
  with_unfolding_all decide

/-- C2 as amended: the join engine never consumes record coordinates — its
output is unchanged when every record's latitude and longitude are overwritten
with arbitrary values; 7-digit ids are always placed at polygon centroids. -/
theorem c2_placement_ignores_coordinates (ids : List String) (fs : List GeoFeature)
    (rows : List DashboardRecord) (la lo : Option ℚ) :
    loadGeoData ids fs (rows.map (fun r => { r with latitude := la, longitude := lo }))
      = loadGeoData ids fs rows := by
  have h : placeCity fs (rows.map (fun r => { r with latitude := la, longitude := lo }))
      = placeCity fs rows :=
    funext (fun cid => placeCity_coords fs rows la lo cid)
  unfold loadGeoData
  rw [h]

/-- C3 counterexample: the 5-digit input id `"99999"` matches no boundary
feature, yet the load produces zero placed features AND zero logged drops — the
identifier is silently lost and the count invariant fails. -/
theorem c3_silent_loss_cex :
    (["99999"] : List String).length = 1
    ∧ (loadGeoData ["99999"] [texas48001] []).counties.length = 0
    ∧ (loadGeoData ["99999"] [texas48001] []).cities.length = 0
    ∧ (loadGeoData ["99999"] [texas48001] []).drops.length = 0
    ∧ ¬ ((["99999"] : List String).length
          = ((loadGeoData ["99999"] [texas48001] []).counties.length
              + (loadGeoData ["99999"] [texas48001] []).cities.length)
            + (loadGeoData ["99999"] [texas48001] []).drops.length) := by
  decide

/-- C3 as amended: the placed-or-logged accounting holds only for the 7-digit
subset of the input — every 7-digit id becomes either a city marker or one
logged drop. -/
theorem c3_city_count_invariant (ids : List String) (fs : List GeoFeature)
    (rows : List DashboardRecord) :
    (cityIdsOf ids).length
      = (loadGeoData ids fs rows).cities.length + (loadGeoData ids fs rows).drops.length := by
  unfold loadGeoData
  exact (length_filterMap_add_filter (placeCity fs rows) (cityIdsOf ids)).symm

/-- C4: with input city `"4819000"`, no county `"48190"` in the collection, and
a same-state county `48001` present but carried as a MultiPolygon, the engine
produces NO feature for the city (it logs it as dropped), because the fallback
only handles `Polygon` geometry — contradicting the claim that a same-state
county suffices. -/
theorem c4_same_state_multipolygon_dropped :
    jsStartsWith (padStart texasMulti.fid 5 '0') (jsTake "4819000" 2) = true
    ∧ ¬ (padStart texasMulti.fid 5 '0' = jsTake "4819000" 5)
    ∧ (loadGeoData ["4819000"] [texasMulti] []).counties = []
    ∧ (loadGeoData ["4819000"] [texasMulti] []).cities = []
    ∧ (loadGeoData ["4819000"] [texasMulti] []).drops = ["4819000"] := by
  decide

/-- C5 counterexample: `padStart` never truncates, so a 6-character county id
normalizes to length 6 (not 5) and a 9-character city id to length 9 (neither 5
nor 7) — the output width is not always in the claimed set. -/
theorem c5_overlong_id_cex :
    jsToLower (jsTrim "County") = "county"
    ∧ jsLength (normalizeIdForType "123456" "County") = 6
    ∧ ¬ (jsLength (normalizeIdForType "123456" "County") = 5)
    ∧ ¬ (jsLength (normalizeIdForType "123456789" "City") = 5
          ∨ jsLength (normalizeIdForType "123456789" "City") = 7) := by
  decide

/-- C5 as amended: the normalized width is the maximum of the declared pad
width (5 for pure county, 7 otherwise) and the cleaned input's own length, so
it is exactly 5 resp. 7 precisely when the cleaned id is no longer than that. -/
theorem c5_normalized_length (id govType : String) :
    jsLength (normalizeIdForType id govType)
      = max (cond (jsToLower (jsTrim govType) == "county") 5 7)
          (jsLength (normalizeId id)) := by
  unfold normalizeIdForType
  cases h : (jsToLower (jsTrim govType) == "county") <;>
    simp only [h, cond_false, cond_true, if_true, if_false, Bool.false_eq_true,
      padStart_jsLength]

/-- C6: a row whose raw identifier is only apostrophes (cleaned form empty) is
NOT discarded — `padStart` runs before the emptiness check and fabricates the
plausible-looking id `"0000000"`, so `normalizeRow` returns a record instead of
`null`, contradicting the claim. -/
theorem c6_empty_id_row_kept :
    normalizeId (String.mk [apos, apos]) = ""
    ∧ emptyIdRow.JurisdictionID = some (String.mk [apos, apos])
    ∧ (normalizeRow emptyIdRow).map (fun r => r.jurisdictionId) = some "0000000" := by
  decide

/-- C7: the secondary unified match stores `pad5(countyId) ++ "00"` only when
exactly that string is a member of the input id set; concretely, boundary id
`8031` pads to `"08031"`, `"0803100" ≠ "0820000"` so the Denver input does not
match, while the exact id `"0803100"` does. -/
theorem c7_secondary_match_exact :
    (∀ (ids : List String) (fs : List GeoFeature) (f : GeoFeature),
        countyCsvId ids fs f = some (padStart f.fid 5 '0' ++ "00") →
        ids.contains (padStart f.fid 5 '0' ++ "00") = true)
    ∧ countyCsvId ["0820000"] [denverBoundary] denverBoundary = none
    ∧ countyCsvId ["0803100"] [denverBoundary] denverBoundary = some "0803100" :=
  ⟨fun _ _ _ h => countyCsvId_contains h, by decide, by decide⟩

/-- C7 witness: the universal part applied to the concrete Denver boundary with
the exact unified-style input id. -/
theorem c7_secondary_match_exact_witness :
    (["0803100"] : List String).contains (padStart denverBoundary.fid 5 '0' ++ "00") = true :=
  c7_secondary_match_exact.1 ["0803100"] [denverBoundary] denverBoundary (by decide)

/-- C8: the centroid of a `Polygon` county is the arithmetic mean of its first
ring's vertex coordinates, but a `MultiPolygon` county is not handled at all —
the same ring under geometry type `"MultiPolygon"` yields no marker and a
logged drop, contradicting the claim that multi-polygon input still gets a
centroid. -/
theorem c8_multipolygon_not_handled :
    placeCity [denverMulti] [] "0820000" = none
    ∧ (loadGeoData ["0820000"] [denverMulti] []).cities = []
    ∧ (loadGeoData ["0820000"] [denverMulti] []).drops = ["0820000"]
    ∧ placeCity [denverPoly] [] "0820000"
        = some { name := "City", csvId := "0820000",
                 lng := qMean ((denverPoly.rings.headD []).map Prod.fst),
                 lat := qMean ((denverPoly.rings.headD []).map Prod.snd) }
    ∧ qMean ((denverPoly.rings.headD []).map Prod.fst) = 2
    ∧ qMean ((denverPoly.rings.headD []).map Prod.snd) = 1 := by
  with_unfolding_all decide

/-- C9: for every row that survives normalization, the record's `isUnified`
flag and display label agree with the spec's classifier contract
(`specClassifier`), and the Denver scenario row yields canonical id
`"0820000"`, `isUnified = true` and label `"Unified City–County"`. -/
theorem c9_classifier_contract :
    (∀ (raw : CsvRowRaw) (r : DashboardRecord), normalizeRow raw = some r →
        (r.isUnified, r.displayGovernmentType)
          = specClassifier (jsTrimOr raw.Notes) r.governmentTypes)
    ∧ (normalizeRow denverRow).map
        (fun r => (r.jurisdictionId, r.isUnified, r.displayGovernmentType))
        = some ("0820000", true, "Unified City–County") := by
  constructor
  · intro raw r h
    have hr := normalizeRow_eq h
    subst hr
    simp only [mkRecord, specClassifier]
    cases hb : strIncludes (jsTrimOr raw.Notes) unifiedMarker
    · simp only [hb, Bool.false_or, if_false, Bool.false_eq_true]
      cases hc : ((splitGovTypes (jsTrimOr raw.GovernmentType)).contains "City"
          && (splitGovTypes (jsTrimOr raw.GovernmentType)).contains "County")
      · simp only [hc, if_false, Bool.false_eq_true]
        cases hk : splitGovTypes (jsTrimOr raw.GovernmentType) with
        | nil => simp
        | cons k t =>
          have hne := splitGovTypes_head_ne hk
          simp [hne]
      · simp [hc]
    · simp [hb]
  · decide

/-- C9 witness: the classifier contract applied to the Denver scenario row. -/
theorem c9_classifier_contract_witness :
    ((mkRecord denverRow).isUnified, (mkRecord denverRow).displayGovernmentType)
      = specClassifier (jsTrimOr denverRow.Notes) (mkRecord denverRow).governmentTypes :=
  c9_classifier_contract.1 denverRow (mkRecord denverRow) (by decide)

/-- C10: every feature the join emits — county polygon or city marker — carries
a `CSV_ID` that is a member of the input id set, so a click-through lookup by
that id can always find its source records. -/
theorem c10_csvid_in_input (ids : List String) (fs : List GeoFeature)
    (rows : List DashboardRecord) :
    (((loadGeoData ids fs rows).counties.all (fun p => ids.contains p.2))
      && ((loadGeoData ids fs rows).cities.all (fun m => ids.contains m.csvId))) = true := by
  rw [Bool.and_eq_true]
  constructor
  · rw [List.all_eq_true]
    intro p hp
    unfold loadGeoData at hp
    rw [List.mem_filterMap] at hp
    obtain ⟨f, _, hmap⟩ := hp
    cases hc : countyCsvId ids fs f with
    | none =>
      rw [hc] at hmap
      exact Option.noConfusion hmap
    | some c =>
      rw [hc] at hmap
      injection hmap with hmap
      rw [← hmap]
      exact countyCsvId_contains hc
  · rw [List.all_eq_true]
    intro m hm
    unfold loadGeoData at hm
    rw [List.mem_filterMap] at hm
    obtain ⟨cid, hcid, hpm⟩ := hm
    rw [placeCity_csvId hpm]
    unfold cityIdsOf at hcid
    rw [List.mem_filter] at hcid
    exact List.elem_eq_true_of_mem hcid.1
